import Mathlib

/-!
Shallow embedding of the league-tables service.

The embedding covers, faithfully to the TypeScript source:
- the normalized standings row shape (interface TeamData) and the upstream
  entry shape (interface Entry) together with the row mapping performed on a
  successful fetch (src/app/api/leagues/[league]/route.ts, fetchLeagueData);
- the retry loop of fetchLeagueData, including the classification of thrown
  values (the plain object thrown on HTTP 429, the Error thrown on any other
  non-ok status, and transport failures) and the exponential backoff;
- the GET route handler: league lookup, cache freshness check, cache write on
  success, stale fallback and error shaping in the catch block;
- the qualification zone classifier getQualificationStatus of the table page.

Time is modelled in milliseconds since the epoch (what Date.now returns); the
ISO string produced by toISOString for the cachedAt field is modelled by the
underlying millisecond value, an injective rendering.
-/

namespace LeagueTables

/-- Normalized standings row: interface TeamData in route.ts and the table
page. All numeric fields are JS numbers holding integers; modelled as Int. -/
structure TeamData where
  position : Int
  team : String
  played : Int
  won : Int
  drawn : Int
  lost : Int
  gf : Int
  ga : Int
  gd : Int
  points : Int
  deriving DecidableEq, Repr

/-- Upstream team object: only its name field is read (entry.team.name). -/
structure UpTeam where
  name : String
  deriving DecidableEq, Repr

/-- Upstream standings entry: interface Entry inside fetchLeagueData. -/
structure Entry where
  position : Int
  team : UpTeam
  playedGames : Int
  won : Int
  draw : Int
  lost : Int
  goalsFor : Int
  goalsAgainst : Int
  goalDifference : Int
  points : Int
  deriving DecidableEq, Repr

/-- The arrow body of data.standings[0].table.map in fetchLeagueData: each
upstream entry becomes a normalized row by field renaming only. -/
def normalizeRow (e : Entry) : TeamData :=
  { position := e.position, team := e.team.name, played := e.playedGames,
    won := e.won, drawn := e.draw, lost := e.lost, gf := e.goalsFor,
    ga := e.goalsAgainst, gd := e.goalDifference, points := e.points }

/-- Qualification-zone position ranges of a league descriptor
(leagues.json positions object). Each field is optional: the table page
accesses every range with the optional-chaining includes call. -/
structure Positions where
  championsLeague : Option (List Int)
  championsLeagueQualifier : Option (List Int)
  europaLeague : Option (List Int)
  conferenceLeague : Option (List Int)
  relegation : Option (List Int)
  playoff : Option (List Int)
  deriving DecidableEq, Repr

/-- Static league descriptor from leagues.json: the fields the route handler
and the table page read. The positions field is optional because the table
page guards with an optional chain before using it. -/
structure LeagueDescriptor where
  slug : String
  apiCode : String
  positions : Option Positions
  deriving DecidableEq, Repr

/-- The qualification status union type of the table page. -/
inductive QualificationStatus where
  | championsLeague
  | championsLeagueQualifier
  | europaLeague
  | conferenceLeague
  | relegation
  | playoff
  | none
  deriving DecidableEq, Repr

/-- JS ranges?.includes(position): undefined is falsy, an array answers
membership. -/
def optIncludes (ranges : Option (List Int)) (position : Int) : Bool :=
  match ranges with
  | some l => l.contains position
  | Option.none => false

/-- getQualificationStatus of the table page, including the early return
when the league or its positions object is missing. The chain tests
championsLeague, championsLeagueQualifier, europaLeague, conferenceLeague,
relegation, playoff in that source order. -/
def getQualificationStatus (leagueData : Option LeagueDescriptor)
    (position : Int) : QualificationStatus :=
  match leagueData with
  | Option.none => .none
  | some ld =>
    match ld.positions with
    | Option.none => .none
    | some positions =>
      if optIncludes positions.championsLeague position then .championsLeague
      else if optIncludes positions.championsLeagueQualifier position then
        .championsLeagueQualifier
      else if optIncludes positions.europaLeague position then .europaLeague
      else if optIncludes positions.conferenceLeague position then
        .conferenceLeague
      else if optIncludes positions.relegation position then .relegation
      else if optIncludes positions.playoff position then .playoff
      else .none

/-- Modelled from the claim wording, for comparison with the source function:
the classifier is claimed to check continental tiers first, then playoff,
then relegation, returning the first matching zone tag. -/
def getQualificationStatusClaimed (leagueData : Option LeagueDescriptor)
    (position : Int) : QualificationStatus :=
  match leagueData with
  | Option.none => .none
  | some ld =>
    match ld.positions with
    | Option.none => .none
    | some positions =>
      if optIncludes positions.championsLeague position then .championsLeague
      else if optIncludes positions.championsLeagueQualifier position then
        .championsLeagueQualifier
      else if optIncludes positions.europaLeague position then .europaLeague
      else if optIncludes positions.conferenceLeague position then
        .conferenceLeague
      else if optIncludes positions.playoff position then .playoff
      else if optIncludes positions.relegation position then .relegation
      else .none

/-- The priority list of zone ranges actually encoded by the if-else chain of
getQualificationStatus, in source order. -/
def zoneRanges (positions : Positions) :
    List (QualificationStatus × Option (List Int)) :=
  [(.championsLeague, positions.championsLeague),
   (.championsLeagueQualifier, positions.championsLeagueQualifier),
   (.europaLeague, positions.europaLeague),
   (.conferenceLeague, positions.conferenceLeague),
   (.relegation, positions.relegation),
   (.playoff, positions.playoff)]

/-- First zone in a priority list whose range contains the position, with
none as the fallback. -/
def firstMatchingZone (l : List (QualificationStatus × Option (List Int)))
    (position : Int) : QualificationStatus :=
  match l with
  | [] => .none
  | (z, r) :: rest =>
    if optIncludes r position then z else firstMatchingZone rest position

/-- Cache freshness window: 60 * 1000 milliseconds (one minute). -/
def CACHE_DURATION : Nat := 60 * 1000

/-- Maximum number of retries beyond the first attempt. -/
def MAX_RETRY_COUNT : Nat := 3

/-- The three kinds of value fetchLeagueData can throw.

rateLimited models the object literal thrown on HTTP 429: it is a plain
object carrying a status property and is not an Error instance.
httpError models the Error thrown on any other non-ok status; transport
models a rejection of fetch itself (a network-level Error). Both Error
kinds carry no status property. -/
inductive FetchErr where
  | rateLimited
  | httpError (status : Nat)
  | transport (msg : String)
  deriving DecidableEq, Repr

/-- JS fact about a thrown value: does the property test status in error
succeed? Only the 429 object literal has a status property. -/
def FetchErr.hasStatus : FetchErr → Bool
  | .rateLimited => true
  | .httpError _ => false
  | .transport _ => false

/-- JS fact about a thrown value: does error instanceof Error hold? The 429
object literal is not constructed with new Error, so it is not one. -/
def FetchErr.isErrorInstance : FetchErr → Bool
  | .rateLimited => false
  | .httpError _ => true
  | .transport _ => true

/-- The message property of each thrown value. -/
def FetchErr.message : FetchErr → String
  | .rateLimited => "API rate limit exceeded"
  | .httpError s => "Failed to fetch data: " ++ toString s
  | .transport m => m

/-- Substring test modelling the JS string includes method: splitting on the
needle yields more than one piece exactly when the needle occurs. -/
def strIncludes (hay needle : String) : Bool :=
  (hay.splitOn needle).length != 1

/-- Does the message of a thrown value contain the text rate limit? The
message of an httpError is the fixed text Failed to fetch data: followed by
decimal digits, so it never contains that text. -/
def FetchErr.messageHasRateLimit : FetchErr → Bool
  | .rateLimited => true
  | .httpError _ => false
  | .transport m => strIncludes m "rate limit"

/-- JS fact: the property test succeeded and the status property equals 429.
The only thrown value with a status property is the 429 object. -/
def FetchErr.statusIs429 : FetchErr → Bool
  | .rateLimited => true
  | .httpError _ => false
  | .transport _ => false

/-- Outcome of one attempt of the upstream fetch call as seen by the
try-block: either an HTTP response carrying a status code and (when the body
parses) the data.standings[0].table array, or a transport-level rejection. -/
inductive Attempt where
  | response (status : Nat) (table : List Entry)
  | network (msg : String)

/-- The ok getter of a fetch Response: status in the range 200 to 299. -/
def respOk (status : Nat) : Bool :=
  200 ≤ status && status ≤ 299

/-- One iteration of the try-block of fetchLeagueData: throw the 429 object
on status 429, throw an Error on any other non-ok status, otherwise map the
table rows through the normalizer. -/
def attemptResult : Attempt → Except FetchErr (List TeamData)
  | .response status table =>
    if status = 429 then .error .rateLimited
    else if !respOk status then .error (.httpError status)
    else .ok (table.map normalizeRow)
  | .network msg => .error (.transport msg)

/-- The retry guard of the catch block of fetchLeagueData:
retryCount < MAX_RETRY_COUNT and not (error instanceof Object and status in
error). Every thrown value is an Object, so the second conjunct reduces to
the absence of a status property. -/
def shouldRetry (retryCount : Nat) (e : FetchErr) : Bool :=
  retryCount < MAX_RETRY_COUNT && !e.hasStatus

instance {ε α : Type} [DecidableEq ε] [DecidableEq α] :
    DecidableEq (Except ε α) := fun a b =>
  match a, b with
  | .ok x, .ok y =>
    if h : x = y then .isTrue (by rw [h]) else .isFalse (by simp [h])
  | .ok _, .error _ => .isFalse (by simp)
  | .error _, .ok _ => .isFalse (by simp)
  | .error x, .error y =>
    if h : x = y then .isTrue (by rw [h]) else .isFalse (by simp [h])

/-- Observable trace of one call of fetchLeagueData: how many upstream
attempts were issued, the backoff delays slept between consecutive attempts
(in milliseconds, in order), and the final outcome. -/
structure FetchTrace where
  attempts : Nat
  delays : List Nat
  result : Except FetchErr (List TeamData)
  deriving DecidableEq, Repr

/-- Recursion core of fetchLeagueData. The environment env gives the outcome
of the attempt issued at each retryCount. The fuel argument only makes the
bounded recursion structural: fetchLeagueData passes
MAX_RETRY_COUNT - retryCount, and shouldRetry enforces
retryCount < MAX_RETRY_COUNT, so the zero-fuel branch of the retry case is
never reached (certified by runAttempts_unfold below). -/
def runAttempts (env : Nat → Attempt) : Nat → Nat → FetchTrace
  | fuel, retryCount =>
    match attemptResult (env retryCount) with
    | .ok rows => ⟨1, [], .ok rows⟩
    | .error e =>
      if shouldRetry retryCount e then
        match fuel with
        | f + 1 =>
          let t := runAttempts env f (retryCount + 1)
          ⟨t.attempts + 1, 2 ^ retryCount * 1000 :: t.delays, t.result⟩
        | 0 => ⟨1, [], .error e⟩
      else ⟨1, [], .error e⟩

/-- fetchLeagueData of route.ts, as a trace of attempts: try one upstream
attempt; on a thrown failure, if the retry guard allows, sleep
2 ^ retryCount seconds and recurse with retryCount + 1, else rethrow. -/
def fetchLeagueData (env : Nat → Attempt) (retryCount : Nat) : FetchTrace :=
  runAttempts env (MAX_RETRY_COUNT - retryCount) retryCount

/-- One cached value: interface CacheItem of route.ts. The timestamp is the
Date.now value (milliseconds) recorded when the entry was written. -/
structure CacheItem where
  data : List TeamData
  timestamp : Nat
  deriving DecidableEq, Repr

/-- The module-level cache object, a Record from league slug to CacheItem.
Modelled as an association list read through first-match lookup; assignment
prepends, which is extensionally the same as overwriting under that
lookup. -/
abbrev Cache : Type := List (String × CacheItem)

/-- Read cache[slug]. -/
def cacheGet (c : Cache) (slug : String) : Option CacheItem :=
  (List.find? (fun p => p.1 == slug) c).map (fun p => p.2)

/-- Write cache[slug] = item. -/
def cachePut (c : Cache) (slug : String) (item : CacheItem) : Cache :=
  (slug, item) :: c

/-- Shape of the JSON body produced by NextResponse.json in the GET handler,
together with the HTTP status of the response. Absent JSON fields are none;
the cachedAt ISO string is modelled by its millisecond timestamp. -/
structure JsonResponse where
  status : Nat := 200
  data : Option (List TeamData) := Option.none
  error : Option String := Option.none
  cached : Option Bool := Option.none
  stale : Option Bool := Option.none
  cachedAt : Option Nat := Option.none
  rateLimited : Option Bool := Option.none
  retryAfter : Option Nat := Option.none
  deriving DecidableEq, Repr

/-- Result of one GET request: the cache state after the request, the JSON
response, and whether fetchLeagueData was invoked (i.e. the handler went
past the fresh-cache fast path). -/
structure GetOutcome where
  cache : Cache
  response : JsonResponse
  usedFetcher : Bool
  deriving DecidableEq, Repr

/-- The error message the catch block serializes:
error instanceof Error ? error.message : the literal Unknown error. -/
def caughtMessage (e : FetchErr) : String :=
  if e.isErrorInstance then e.message else "Unknown error"

/-- The rate-limit test of the catch block:
error instanceof Error and (the message contains rate limit, or the thrown
value has a status property equal to 429). -/
def rateLimitCheck (e : FetchErr) : Bool :=
  e.isErrorInstance && (e.messageHasRateLimit || (e.hasStatus && e.statusIs429))

/-- The part of the GET handler from the fetchLeagueData call on: on success
store the rows in the cache and return them; on a thrown failure fall back to
any cache entry with a stale flag, else return the rate-limit shape or a
generic 500. storeTime is the Date.now value at the cache write. -/
def handleFetch (slug : String) (cache : Cache) (storeTime : Nat)
    (env : Nat → Attempt) : GetOutcome :=
  match (fetchLeagueData env 0).result with
  | .ok tableData =>
    ⟨cachePut cache slug ⟨tableData, storeTime⟩,
     { data := some tableData, cached := some false }, true⟩
  | .error e =>
    match cacheGet cache slug with
    | some item =>
      ⟨cache,
       { data := some item.data, error := some (caughtMessage e),
         cached := some true, stale := some true,
         cachedAt := some item.timestamp }, true⟩
    | Option.none =>
      if rateLimitCheck e then
        ⟨cache,
         { status := 429, error := some "API rate limit exceeded",
           rateLimited := some true, retryAfter := some 60 }, true⟩
      else
        ⟨cache, { status := 500, error := some (caughtMessage e) }, true⟩

/-- The GET route handler of route.ts. leagues is the static descriptor list
from leagues.json; slug is the league route parameter; checkTime and
storeTime are the two Date.now readings (at the freshness check and at the
cache write after the awaited fetch); env supplies the outcome of each
upstream attempt the fetcher would issue. -/
def GET (leagues : List LeagueDescriptor) (slug : String) (cache : Cache)
    (checkTime storeTime : Nat) (env : Nat → Attempt) : GetOutcome :=
  match List.find? (fun l => l.slug == slug) leagues with
  | Option.none =>
    ⟨cache, { status := 404, error := some "League not found" }, false⟩
  | some _leagueData =>
    match cacheGet cache slug with
    | some item =>
      if checkTime - item.timestamp < CACHE_DURATION then
        ⟨cache,
         { data := some item.data, cached := some true,
           cachedAt := some item.timestamp }, false⟩
      else handleFetch slug cache storeTime env
    | Option.none => handleFetch slug cache storeTime env

/-- One inbound request: the league slug, the two clock readings, and the
environment of upstream attempt outcomes seen by this request. -/
structure Request where
  slug : String
  checkTime : Nat
  storeTime : Nat
  env : Nat → Attempt

/-- Cache evolution of one request. -/
def stepRequest (leagues : List LeagueDescriptor) (c : Cache)
    (r : Request) : Cache :=
  (GET leagues r.slug c r.checkTime r.storeTime r.env).cache

/-- Cache evolution of a sequence of requests, oldest first. -/
def runRequests (leagues : List LeagueDescriptor) (c : Cache) :
    List Request → Cache
  | [] => c
  | r :: rs => runRequests leagues (stepRequest leagues c r) rs

/-! Concrete fixtures used by witnesses and counterexamples. -/

/-- The sample upstream row of the round-trip property. -/
def sampleEntry : Entry := ⟨1, ⟨"X"⟩, 10, 7, 2, 1, 20, 5, 15, 23⟩

/-- The expected normalized form of sampleEntry. -/
def sampleRow : TeamData := ⟨1, "X", 10, 7, 2, 1, 20, 5, 15, 23⟩

/-- A minimal league descriptor. -/
def premierLeague : LeagueDescriptor := ⟨"premier-league", "PL", Option.none⟩

/-- A descriptor whose playoff and relegation ranges overlap at 18. -/
def overlapLeague : LeagueDescriptor :=
  ⟨"overlap", "OV",
   some ⟨Option.none, Option.none, Option.none, Option.none,
         some [18], some [18]⟩⟩

/-- Upstream answers HTTP 429 on every attempt. -/
def env429 : Nat → Attempt := fun _ => .response 429 []

/-- Upstream answers HTTP 500 on every attempt. -/
def env500 : Nat → Attempt := fun _ => .response 500 []

/-- The network fails on every attempt. -/
def envDown : Nat → Attempt := fun _ => .network "ECONNRESET"

/-- Upstream answers 200 with the sample table on every attempt. -/
def envOk : Nat → Attempt := fun _ => .response 200 [sampleEntry]

/-- A cache holding one entry written at time 0 (stale by time 1000000). -/
def staleCache : Cache := [("premier-league", ⟨[sampleRow], 0⟩)]

/-- A request that succeeds against the upstream. -/
def okRequest : Request := ⟨"premier-league", 5, 7, envOk⟩

/-- A request that hits the upstream rate limit. -/
def rlRequest : Request := ⟨"premier-league", 1000000, 1000001, env429⟩

/-! Helper lemmas. -/

/-- The fuel argument never truncates the recursion: fetchLeagueData
satisfies exactly the recurrence of the source function. -/
theorem fetchLeagueData_unfold (env : Nat → Attempt) (retryCount : Nat) :
    fetchLeagueData env retryCount =
      match attemptResult (env retryCount) with
      | .ok rows => ⟨1, [], .ok rows⟩
      | .error e =>
        if shouldRetry retryCount e then
          let t := fetchLeagueData env (retryCount + 1)
          ⟨t.attempts + 1, 2 ^ retryCount * 1000 :: t.delays, t.result⟩
        else ⟨1, [], .error e⟩ := by
  unfold fetchLeagueData
  rw [runAttempts]
  cases h : attemptResult (env retryCount) with
  | ok rows => rfl
  | error e =>
    by_cases hr : shouldRetry retryCount e
    · have hlt : retryCount < MAX_RETRY_COUNT := by
        have := hr
        unfold shouldRetry at this
        simp only [Bool.and_eq_true, decide_eq_true_eq] at this
        exact this.1
      have hfuel : MAX_RETRY_COUNT - retryCount =
          (MAX_RETRY_COUNT - (retryCount + 1)) + 1 := by omega
      simp only [hr, if_true, hfuel]
    · simp [hr]

/-! Claim theorems. -/

/-- C8: normalizing the upstream sample row with position 1, team name X,
10 played, 7 won, 2 drawn, 1 lost, 20 for, 5 against, difference 15 and 23
points yields exactly the normalized row with those values under the renamed
field names; and in general every output field of the mapping is a verbatim
copy of one upstream field, with no derived computation. -/
theorem normalize_sample_row :
    normalizeRow sampleEntry = sampleRow ∧
    ∀ e : Entry, normalizeRow e =
      ⟨e.position, e.team.name, e.playedGames, e.won, e.draw, e.lost,
       e.goalsFor, e.goalsAgainst, e.goalDifference, e.points⟩ :=
  ⟨rfl, fun _ => rfl⟩

/-- C3 counterexample: on a configuration whose playoff and relegation
ranges both contain position 18, the classifier returns relegation, while
first-match in the claimed priority order (continental tiers, then playoff,
then relegation) would return playoff: the code checks relegation before
playoff. -/
theorem qualification_priority_counterexample :
    getQualificationStatus (some overlapLeague) 18 =
      QualificationStatus.relegation ∧
    getQualificationStatusClaimed (some overlapLeague) 18 =
      QualificationStatus.playoff ∧
    QualificationStatus.relegation ≠ QualificationStatus.playoff := by
  refine ⟨rfl, rfl, ?_⟩
  decide

/-- C3 amended: the classifier checks the configured ranges in the fixed
priority order continental tiers (championsLeague, championsLeagueQualifier,
europaLeague, conferenceLeague) first, then relegation, then playoff, and
returns the first matching zone tag, or none when no configured range
contains the position (also when the positions object is absent). -/
theorem qualification_first_match (ld : LeagueDescriptor) (position : Int) :
    getQualificationStatus (some ld) position =
      (match ld.positions with
       | Option.none => QualificationStatus.none
       | some ps => firstMatchingZone (zoneRanges ps) position) := by
  cases h : ld.positions with
  | none => simp [getQualificationStatus, h]
  | some ps =>
    simp only [getQualificationStatus, h, zoneRanges, firstMatchingZone]

/-- C7: a call of the fetcher whose attempt receives HTTP 429 makes no
further attempt: the trace shows a single attempt, no backoff delay, and the
rate-limit failure propagated as the outcome. -/
theorem rate_limit_never_retried (env : Nat → Attempt) (retryCount : Nat)
    (table : List Entry) (h : env retryCount = .response 429 table) :
    fetchLeagueData env retryCount =
      ⟨1, [], .error .rateLimited⟩ := by
  rw [fetchLeagueData_unfold, h]
  simp [attemptResult, shouldRetry, FetchErr.hasStatus]

/-- C7 witness: an upstream answering 429 from the first attempt yields a
one-attempt trace with no delays. -/
theorem rate_limit_never_retried_witness :
    env429 0 = Attempt.response 429 [] ∧
    fetchLeagueData env429 0 = ⟨1, [], .error .rateLimited⟩ :=
  ⟨rfl, rate_limit_never_retried env429 0 [] rfl⟩

/-- C4: when every attempt fails at the transport level, the fetcher makes
exactly MAX_RETRY_COUNT + 1 = 4 attempts, sleeping 2 ^ n seconds (1000,
2000, 4000 milliseconds) between attempt n and attempt n + 1, and the last
failure is the surfaced outcome. -/
theorem transient_retry_schedule (env : Nat → Attempt) (msg : Nat → String)
    (h : ∀ n, env n = .network (msg n)) :
    fetchLeagueData env 0 =
      ⟨MAX_RETRY_COUNT + 1, [2 ^ 0 * 1000, 2 ^ 1 * 1000, 2 ^ 2 * 1000],
       .error (.transport (msg 3))⟩ := by
  have e3 : fetchLeagueData env 3 = ⟨1, [], .error (.transport (msg 3))⟩ := by
    rw [fetchLeagueData_unfold, h 3]
    simp [attemptResult, shouldRetry, FetchErr.hasStatus, MAX_RETRY_COUNT]
  have e2 : fetchLeagueData env 2 =
      ⟨2, [4000], .error (.transport (msg 3))⟩ := by
    rw [fetchLeagueData_unfold, h 2]
    simp [attemptResult, shouldRetry, FetchErr.hasStatus, MAX_RETRY_COUNT, e3]
  have e1 : fetchLeagueData env 1 =
      ⟨3, [2000, 4000], .error (.transport (msg 3))⟩ := by
    rw [fetchLeagueData_unfold, h 1]
    simp [attemptResult, shouldRetry, FetchErr.hasStatus, MAX_RETRY_COUNT, e2]
  rw [fetchLeagueData_unfold, h 0]
  simp [attemptResult, shouldRetry, FetchErr.hasStatus, MAX_RETRY_COUNT, e1]

/-- C4 witness: with the network down on every attempt, the trace is 4
attempts with delays of 1, 2 and 4 seconds and the last transport failure
as outcome. -/
theorem transient_retry_schedule_witness :
    (∀ n, envDown n = Attempt.network "ECONNRESET") ∧
    fetchLeagueData envDown 0 =
      ⟨MAX_RETRY_COUNT + 1, [2 ^ 0 * 1000, 2 ^ 1 * 1000, 2 ^ 2 * 1000],
       .error (.transport "ECONNRESET")⟩ :=
  ⟨fun _ => rfl,
   transient_retry_schedule envDown (fun _ => "ECONNRESET") (fun _ => rfl)⟩

/-- C2 counterexample: with the upstream answering HTTP 500 on every
attempt, the fetcher makes 4 attempts, not 1: the Error thrown for a non-429
non-success status carries no status property, so the retry guard treats it
like a transient failure and retries it. -/
theorem upstream_error_retried_counterexample :
    (fetchLeagueData env500 0).attempts = 4 ∧
    (fetchLeagueData env500 0).attempts ≠ 1 := by
  refine ⟨rfl, ?_⟩
  decide

/-- C2 amended: only the 429 rate-limit failure, which is thrown as a plain
object with a status property, is exempt from retry; a non-429 non-success
HTTP status is classified as an upstream Error without a status property and
is retried with the same backoff as a transient failure, up to
MAX_RETRY_COUNT retries, after which the last upstream failure propagates. -/
theorem non_429_http_error_retried (env : Nat → Attempt) (s : Nat → Nat)
    (tbl : Nat → List Entry) (h : ∀ n, env n = .response (s n) (tbl n))
    (h429 : ∀ n, s n ≠ 429) (hok : ∀ n, respOk (s n) = false) :
    fetchLeagueData env 0 =
      ⟨MAX_RETRY_COUNT + 1, [2 ^ 0 * 1000, 2 ^ 1 * 1000, 2 ^ 2 * 1000],
       .error (.httpError (s 3))⟩ := by
  have e3 : fetchLeagueData env 3 =
      ⟨1, [], .error (.httpError (s 3))⟩ := by
    rw [fetchLeagueData_unfold, h 3]
    simp [attemptResult, shouldRetry, FetchErr.hasStatus, MAX_RETRY_COUNT,
      h429 3, hok 3]
  have e2 : fetchLeagueData env 2 =
      ⟨2, [4000], .error (.httpError (s 3))⟩ := by
    rw [fetchLeagueData_unfold, h 2]
    simp [attemptResult, shouldRetry, FetchErr.hasStatus, MAX_RETRY_COUNT,
      h429 2, hok 2, e3]
  have e1 : fetchLeagueData env 1 =
      ⟨3, [2000, 4000], .error (.httpError (s 3))⟩ := by
    rw [fetchLeagueData_unfold, h 1]
    simp [attemptResult, shouldRetry, FetchErr.hasStatus, MAX_RETRY_COUNT,
      h429 1, hok 1, e2]
  rw [fetchLeagueData_unfold, h 0]
  simp [attemptResult, shouldRetry, FetchErr.hasStatus, MAX_RETRY_COUNT,
    h429 0, hok 0, e1]

/-- C2 amended witness: the all-500 upstream environment realizes the
amended retry behaviour. -/
theorem non_429_http_error_retried_witness :
    (∀ n, env500 n = Attempt.response 500 []) ∧
    (∀ _n : Nat, (500 : Nat) ≠ 429) ∧
    (∀ _n : Nat, respOk 500 = false) ∧
    fetchLeagueData env500 0 =
      ⟨MAX_RETRY_COUNT + 1, [2 ^ 0 * 1000, 2 ^ 1 * 1000, 2 ^ 2 * 1000],
       .error (.httpError 500)⟩ :=
  ⟨fun _ => rfl, fun _ => (by decide : (500 : Nat) ≠ 429), fun _ => rfl,
   non_429_http_error_retried env500 (fun _ => 500) (fun _ => [])
     (fun _ => rfl) (fun _ => (by decide : (500 : Nat) ≠ 429))
     (fun _ => rfl)⟩

/-- C9: a request whose league slug matches no configured descriptor gets
the 404 League not found response immediately: the cache is neither read nor
written (the cache state is returned unchanged and the response does not
depend on it) and the fetcher is not invoked (usedFetcher is false and the
response does not depend on the attempt environment). -/
theorem unknown_league_not_found (leagues : List LeagueDescriptor)
    (slug : String) (cache : Cache) (checkTime storeTime : Nat)
    (env : Nat → Attempt)
    (h : List.find? (fun l => l.slug == slug) leagues = Option.none) :
    GET leagues slug cache checkTime storeTime env =
      ⟨cache, { status := 404, error := some "League not found" }, false⟩ := by
  unfold GET
  rw [h]

/-- C9 witness: a slug matching no descriptor yields the 404 outcome. -/
theorem unknown_league_not_found_witness :
    List.find? (fun l => l.slug == "nope") [premierLeague] = Option.none ∧
    GET [premierLeague] "nope" staleCache 0 0 envOk =
      ⟨staleCache, { status := 404, error := some "League not found" },
       false⟩ :=
  ⟨rfl, unknown_league_not_found [premierLeague] "nope" staleCache 0 0
    envOk rfl⟩

/-- C5: when the league is configured and the cache entry for it is fresher
than CACHE_DURATION at the time of the check, the handler returns exactly
that entry's rows with cached set to true and the entry's write timestamp as
cachedAt, leaves the cache unchanged, and does not invoke the fetcher: the
outcome is the same for every attempt environment and usedFetcher is
false. -/
theorem fresh_cache_hit_no_fetch (leagues : List LeagueDescriptor)
    (slug : String) (cache : Cache) (checkTime storeTime : Nat)
    (env : Nat → Attempt) (ld : LeagueDescriptor) (item : CacheItem)
    (hfind : List.find? (fun l => l.slug == slug) leagues = some ld)
    (hget : cacheGet cache slug = some item)
    (hfresh : checkTime - item.timestamp < CACHE_DURATION) :
    GET leagues slug cache checkTime storeTime env =
      ⟨cache,
       { data := some item.data, cached := some true,
         cachedAt := some item.timestamp }, false⟩ := by
  unfold GET
  rw [hfind, hget]
  simp [hfresh]

/-- C5 witness: a request 50 seconds after the entry was written is served
from the cache even though every upstream attempt would be a 429. -/
theorem fresh_cache_hit_no_fetch_witness :
    List.find? (fun l => l.slug == "premier-league") [premierLeague] =
      some premierLeague ∧
    cacheGet staleCache "premier-league" = some ⟨[sampleRow], 0⟩ ∧
    (50000 : Nat) - (0 : Nat) < CACHE_DURATION ∧
    GET [premierLeague] "premier-league" staleCache 50000 50001 env429 =
      ⟨staleCache,
       { data := some [sampleRow], cached := some true,
         cachedAt := some 0 }, false⟩ :=
  ⟨rfl, rfl, by decide,
   fresh_cache_hit_no_fetch [premierLeague] "premier-league" staleCache
     50000 50001 env429 premierLeague ⟨[sampleRow], 0⟩ rfl rfl (by decide)⟩

/-- C1, at the failing input: the 429 failure is thrown as a plain object,
not an Error instance, so the catch-block test error instanceof Error fails
and the dedicated rate-limit branch is skipped; with no cache entry for the
league, the handler returns a generic 500 with the message Unknown error and
no rateLimited or retryAfter field, contradicting the claimed rateLimited
response. -/
theorem rate_limited_no_cache_generic_500 :
    GET [premierLeague] "premier-league" [] 0 0 env429 =
      ⟨[], { status := 500, error := some "Unknown error" }, true⟩ ∧
    (GET [premierLeague] "premier-league" [] 0 0 env429).response.rateLimited
        ≠ some true ∧
    (GET [premierLeague] "premier-league" [] 0 0 env429).response.retryAfter
        = Option.none := by
  refine ⟨rfl, ?_, rfl⟩
  decide

/-- C6 counterexample: the fetcher fails with the rate-limit failure, whose
message reads API rate limit exceeded, and a stale cache entry exists; the
stale payload is served, but its warning field reads Unknown error, not the
failure message, because the thrown 429 value is not an Error instance. -/
theorem stale_warning_counterexample :
    (fetchLeagueData env429 0).result = .error .rateLimited ∧
    FetchErr.message .rateLimited = "API rate limit exceeded" ∧
    (GET [premierLeague] "premier-league" staleCache 1000000 1000001
        env429).response.error = some "Unknown error" ∧
    (GET [premierLeague] "premier-league" staleCache 1000000 1000001
        env429).response.error ≠ some (FetchErr.message .rateLimited) := by
  refine ⟨rfl, rfl, rfl, ?_⟩
  decide

/-- C6 amended: when the league is configured, the fetcher fails with any
failure kind, and any cache entry for the league exists (necessarily stale,
else the fetcher would not have run), the handler returns that entry's rows
with cached true, stale true, the entry's write timestamp, and a warning
that is the failure message when the failure is an Error instance and the
literal Unknown error otherwise (the rate-limited failure is a plain
object); when no entry exists the failure is surfaced directly as an error
response carrying no rows. The cache is unchanged in every failure case. -/
theorem fetch_failure_fallback (leagues : List LeagueDescriptor)
    (slug : String) (cache : Cache) (checkTime storeTime : Nat)
    (env : Nat → Attempt) (ld : LeagueDescriptor) (e : FetchErr)
    (hfind : List.find? (fun l => l.slug == slug) leagues = some ld)
    (hfail : (fetchLeagueData env 0).result = .error e)
    (hstale : ∀ item, cacheGet cache slug = some item →
      CACHE_DURATION ≤ checkTime - item.timestamp) :
    GET leagues slug cache checkTime storeTime env =
      ⟨cache,
       (match cacheGet cache slug with
        | some item =>
          { data := some item.data, error := some (caughtMessage e),
            cached := some true, stale := some true,
            cachedAt := some item.timestamp }
        | Option.none =>
          if rateLimitCheck e then
            { status := 429, error := some "API rate limit exceeded",
              rateLimited := some true, retryAfter := some 60 }
          else { status := 500, error := some (caughtMessage e) }),
       true⟩ := by
  unfold GET handleFetch
  rw [hfind]
  cases hc : cacheGet cache slug with
  | none =>
    rw [hfail]
    by_cases hrl : rateLimitCheck e = true <;> simp [hrl]
  | some item =>
    have hnotfresh : ¬(checkTime - item.timestamp < CACHE_DURATION) := by
      have := hstale item hc
      omega
    rw [hfail]
    simp [hnotfresh]

/-- C6 amended witness: the rate-limit failure against a stale entry is
served from the cache with the stale flag and the Unknown error warning. -/
theorem fetch_failure_fallback_witness :
    List.find? (fun l => l.slug == "premier-league") [premierLeague] =
      some premierLeague ∧
    (fetchLeagueData env429 0).result = .error .rateLimited ∧
    (∀ item, cacheGet staleCache "premier-league" = some item →
      CACHE_DURATION ≤ (1000000 : Nat) - item.timestamp) ∧
    GET [premierLeague] "premier-league" staleCache 1000000 1000001 env429 =
      ⟨staleCache,
       (match cacheGet staleCache "premier-league" with
        | some item =>
          { data := some item.data,
            error := some (caughtMessage .rateLimited),
            cached := some true, stale := some true,
            cachedAt := some item.timestamp }
        | Option.none =>
          if rateLimitCheck .rateLimited then
            { status := 429, error := some "API rate limit exceeded",
              rateLimited := some true, retryAfter := some 60 }
          else
            { status := 500, error := some (caughtMessage .rateLimited) }),
       true⟩ := by
  have hstale : ∀ item, cacheGet staleCache "premier-league" = some item →
      CACHE_DURATION ≤ (1000000 : Nat) - item.timestamp := by
    intro item h
    have hi : (⟨[sampleRow], 0⟩ : CacheItem) = item := Option.some.inj h
    rw [← hi]
    decide
  exact ⟨rfl, rfl, hstale,
    fetch_failure_fallback [premierLeague] "premier-league" staleCache
      1000000 1000001 env429 premierLeague .rateLimited rfl rfl hstale⟩

/-- Lookup after a cache write: the written slug reads back the written
item, every other key is unaffected. -/
theorem cacheGet_cachePut (c : Cache) (slug k : String) (item : CacheItem) :
    cacheGet (cachePut c slug item) k =
      if slug = k then some item else cacheGet c k := by
  by_cases h : slug = k
  · simp [cacheGet, cachePut, List.find?, h]
  · have hb : (slug == k) = false := by simp [h]
    simp [cacheGet, cachePut, List.find?, hb, h]

/-- Each request either leaves the cache unchanged or, when the fetch
succeeded with some rows, overwrites the entry of its slug with those rows
and its store time. -/
theorem stepRequest_cases (L : List LeagueDescriptor) (c : Cache)
    (r : Request) :
    stepRequest L c r = c ∨
    ∃ rows, (fetchLeagueData r.env 0).result = .ok rows ∧
      stepRequest L c r = cachePut c r.slug ⟨rows, r.storeTime⟩ := by
  unfold stepRequest GET handleFetch
  cases hf : List.find? (fun l => l.slug == r.slug) L with
  | none => left; rfl
  | some ld =>
    cases hc : cacheGet c r.slug with
    | none =>
      cases hr : (fetchLeagueData r.env 0).result with
      | ok rows => right; exact ⟨rows, rfl, rfl⟩
      | error e =>
        left
        by_cases hrl : rateLimitCheck e = true <;> simp [hrl]
    | some item =>
      by_cases hfresh : r.checkTime - item.timestamp < CACHE_DURATION
      · left; simp [hfresh]
      · cases hr : (fetchLeagueData r.env 0).result with
        | ok rows =>
          right
          refine ⟨rows, rfl, ?_⟩
          simp [hfresh]
        | error e =>
          left
          simp [hfresh]

/-- Every entry readable after a run of requests was either already readable
in the starting cache or was written by a successful fetch of one of the
requests, with that request's store time. -/
theorem runRequests_lookup (L : List LeagueDescriptor) :
    ∀ (trace : List Request) (c : Cache) (k : String) (item : CacheItem),
      cacheGet (runRequests L c trace) k = some item →
      cacheGet c k = some item ∨
      ∃ req ∈ trace, req.slug = k ∧ item.timestamp = req.storeTime ∧
        (fetchLeagueData req.env 0).result = .ok item.data := by
  intro trace
  induction trace with
  | nil =>
    intro c k item h
    left
    exact h
  | cons r rs ih =>
    intro c k item h
    rcases ih (stepRequest L c r) k item h with hstep | ⟨req, hmem, hreq⟩
    · rcases stepRequest_cases L c r with heq | ⟨rows, hok, hput⟩
      · left
        rwa [heq] at hstep
      · rw [hput, cacheGet_cachePut] at hstep
        by_cases hk : r.slug = k
        · rw [if_pos hk] at hstep
          have hi : (⟨rows, r.storeTime⟩ : CacheItem) = item :=
            Option.some.inj hstep
          right
          refine ⟨r, List.mem_cons_self r rs, hk, ?_, ?_⟩
          · rw [← hi]
          · rw [← hi]
            exact hok
        · left
          rwa [if_neg hk] at hstep
    · right
      exact ⟨req, List.mem_cons_of_mem r hmem, hreq⟩

/-- A successful outcome of one try-block iteration comes from a 200-range
response and is exactly the normalized table of that response. -/
theorem attemptResult_ok (a : Attempt) (rows : List TeamData)
    (h : attemptResult a = .ok rows) :
    ∃ s tbl, a = .response s tbl ∧ s ≠ 429 ∧ respOk s = true ∧
      rows = tbl.map normalizeRow := by
  cases a with
  | response s tbl =>
    by_cases h429 : s = 429
    · simp [attemptResult, h429] at h
    · by_cases hok : respOk s = true
      · refine ⟨s, tbl, rfl, h429, hok, ?_⟩
        simp [attemptResult, h429, hok] at h
        exact h.symm
      · simp [attemptResult, h429, hok] at h
  | network m => simp [attemptResult] at h

/-- A successful trace of the retry loop contains a successful attempt whose
normalized table is the returned rows. -/
theorem runAttempts_ok (env : Nat → Attempt) :
    ∀ (fuel retryCount : Nat) (rows : List TeamData),
      (runAttempts env fuel retryCount).result = .ok rows →
      ∃ n s tbl, env n = .response s tbl ∧ s ≠ 429 ∧ respOk s = true ∧
        rows = tbl.map normalizeRow := by
  intro fuel
  induction fuel with
  | zero =>
    intro rc rows h
    rw [runAttempts] at h
    cases hares : attemptResult (env rc) with
    | ok rows2 =>
      rw [hares] at h
      have hr : rows2 = rows := by simpa using h
      obtain ⟨s, tbl, ha, h429, hok, hmap⟩ := attemptResult_ok _ _ hares
      exact ⟨rc, s, tbl, ha, h429, hok, hr ▸ hmap⟩
    | error e =>
      rw [hares] at h
      by_cases hs : shouldRetry rc e = true <;> simp [hs] at h
  | succ f ih =>
    intro rc rows h
    rw [runAttempts] at h
    cases hares : attemptResult (env rc) with
    | ok rows2 =>
      rw [hares] at h
      have hr : rows2 = rows := by simpa using h
      obtain ⟨s, tbl, ha, h429, hok, hmap⟩ := attemptResult_ok _ _ hares
      exact ⟨rc, s, tbl, ha, h429, hok, hr ▸ hmap⟩
    | error e =>
      rw [hares] at h
      by_cases hs : shouldRetry rc e = true
      · simp [hs] at h
        exact ih (rc + 1) rows h
      · simp [hs] at h

/-- C10: starting from the empty cache, every entry readable after any
sequence of requests was written by a successful fetch of one of those
requests and carries the store-time of that write; any request whose fetch
fails leaves the cache exactly unchanged; an entry present before a request
is still present after it (nothing ever deletes an entry); and every
successful fetch outcome is the normalized table of some 200-range upstream
response. -/
theorem cache_write_integrity (leagues : List LeagueDescriptor) :
    (∀ (trace : List Request) (k : String) (item : CacheItem),
       cacheGet (runRequests leagues [] trace) k = some item →
       ∃ req ∈ trace, req.slug = k ∧ item.timestamp = req.storeTime ∧
         (fetchLeagueData req.env 0).result = .ok item.data) ∧
    (∀ (c : Cache) (r : Request) (e : FetchErr),
       (fetchLeagueData r.env 0).result = .error e →
       stepRequest leagues c r = c) ∧
    (∀ (c : Cache) (r : Request) (k : String),
       (cacheGet c k).isSome = true →
       (cacheGet (stepRequest leagues c r) k).isSome = true) ∧
    (∀ (env : Nat → Attempt) (rows : List TeamData),
       (fetchLeagueData env 0).result = .ok rows →
       ∃ n s tbl, env n = .response s tbl ∧ s ≠ 429 ∧ respOk s = true ∧
         rows = tbl.map normalizeRow) := by
  refine ⟨?_, ?_, ?_, ?_⟩
  · intro trace k item h
    rcases runRequests_lookup leagues trace [] k item h with h0 | h1
    · simp [cacheGet] at h0
    · exact h1
  · intro c r e he
    rcases stepRequest_cases leagues c r with h | ⟨rows, hok, _⟩
    · exact h
    · rw [he] at hok
      exact Except.noConfusion hok
  · intro c r k hk
    rcases stepRequest_cases leagues c r with h | ⟨rows, _, hput⟩
    · rwa [h]
    · rw [hput, cacheGet_cachePut]
      by_cases hsl : r.slug = k
      · simp [hsl]
      · simpa [hsl] using hk
  · intro env rows h
    exact runAttempts_ok env (MAX_RETRY_COUNT - 0) 0 rows h

/-- C10 witness: a successful request writes its rows and store time into
the cache and the theorem recovers that request; a rate-limited request
leaves a stale cache unchanged and preserves the presence of its entry; and
the successful outcome of the sample environment is the normalized sample
table. -/
theorem cache_write_integrity_witness :
    cacheGet (runRequests [premierLeague] [] [okRequest]) "premier-league"
        = some ⟨[sampleRow], 7⟩ ∧
    (∃ req ∈ [okRequest], req.slug = "premier-league" ∧
       (⟨[sampleRow], 7⟩ : CacheItem).timestamp = req.storeTime ∧
       (fetchLeagueData req.env 0).result =
         .ok (⟨[sampleRow], 7⟩ : CacheItem).data) ∧
    (fetchLeagueData rlRequest.env 0).result = .error .rateLimited ∧
    stepRequest [premierLeague] staleCache rlRequest = staleCache ∧
    (cacheGet staleCache "premier-league").isSome = true ∧
    (cacheGet (stepRequest [premierLeague] staleCache rlRequest)
        "premier-league").isSome = true ∧
    (∃ n s tbl, envOk n = .response s tbl ∧ s ≠ 429 ∧ respOk s = true ∧
       [sampleRow] = tbl.map normalizeRow) := by
  refine ⟨rfl, ?_, rfl, ?_, rfl, ?_, ?_⟩
  · exact (cache_write_integrity [premierLeague]).1 [okRequest]
      "premier-league" ⟨[sampleRow], 7⟩ rfl
  · exact (cache_write_integrity [premierLeague]).2.1 staleCache rlRequest
      .rateLimited rfl
  · exact (cache_write_integrity [premierLeague]).2.2.1 staleCache rlRequest
      "premier-league" rfl
  · exact (cache_write_integrity [premierLeague]).2.2.2 envOk [sampleRow] rfl

end LeagueTables
